import Mathlib

/-!
Shallow embedding of the risk-calculation core of `src/app.py` from the
crypto-risk-calculator repository.  The script computes position sizing,
margin, liquidation and risk metrics for a leveraged trade.  This file
models the numeric core (lines 57-245 of the script) over exact
rationals: every float of the source becomes a rational, every widget
value becomes a field of `TradeInputs`, the two `st.stop` validation
exits and the runtime exceptions caught by the outer `try/except` become
`Except` errors.  Division in the source is Python true division, which
raises `ZeroDivisionError` on a zero divisor; the embedding makes every
such raise point an explicit guard, since rational division in Lean is
total.
-/

/-- Position side, the `st.radio` choice of line 92 of `src/app.py`. -/
inductive Side
  | Long
  | Short
deriving DecidableEq

/-- Failure modes of the calculation block of `src/app.py`:
`zeroRiskDistance` is the `st.stop` exit of lines 122-124,
`nonPositiveRisk` the `st.stop` exit of lines 126-128, `divByZero` a
Python `ZeroDivisionError` raised inside the `try` block and caught at
line 247, and `noneFormat` the `TypeError` raised by formatting `None`
with the `.2f` float format spec in the summary banner (line 184). -/
inductive AppError
  | zeroRiskDistance
  | nonPositiveRisk
  | divByZero
  | noneFormat
deriving DecidableEq

/-- Advisory messages emitted by the results pane of `src/app.py`,
lines 233-245: the three mutually exclusive risk-reward messages
(`st.success`, `st.warning`, `st.error`), then the two safety
warnings. -/
inductive Advisory
  | StrongSetup
  | DecentSetup
  | WeakRiskReward
  | LiquidationNearStop
  | ExcessiveAccountRisk
deriving DecidableEq

/-- Input snapshot collected by the widgets of `src/app.py`, lines
57-116.  Field values are unconstrained rationals; the widgets bound
some of them (`leverage` has min 1, `account_balance` min 0, the risk
and DCA percent fields are kept in `[0,100]`) but the calculation block
itself never re-checks those bounds. -/
structure TradeInputs where
  entry : ℚ
  stop : ℚ
  target : ℚ
  leverage : ℕ
  account_balance : ℚ
  use_risk_pct : Bool
  risk_pct_field : ℚ
  risk_dollar_field : ℚ
  side : Side
  use_dca : Bool
  dca_pct_field : ℚ

/-- Resolved dollar risk, lines 78-89: in percent mode it is
`account_balance * risk_pct / 100.0`, otherwise the dollar-risk field
is used directly. -/
def risk (i : TradeInputs) : ℚ :=
  if i.use_risk_pct then i.account_balance * i.risk_pct_field / 100 else i.risk_dollar_field

/-- Effective DCA percentage, lines 97-116: the slider value when DCA is
enabled, `0.0` otherwise. -/
def dca_pct (i : TradeInputs) : ℚ :=
  if i.use_dca then i.dca_pct_field else 0

/-- Line 121: `risk_per_unit = abs(entry - stop)`. -/
def risk_per_unit (i : TradeInputs) : ℚ :=
  |i.entry - i.stop|

/-- Line 131: `total_pos_units = risk / risk_per_unit`. -/
def total_pos_units (i : TradeInputs) : ℚ :=
  risk i / risk_per_unit i

/-- Line 132: `total_notional = total_pos_units * entry`. -/
def total_notional (i : TradeInputs) : ℚ :=
  total_pos_units i * i.entry

/-- Line 135: `entry_fraction = 1.0 - (dca_pct / 100.0)`. -/
def entry_fraction (i : TradeInputs) : ℚ :=
  1 - dca_pct i / 100

/-- Line 136: `dca_fraction = dca_pct / 100.0`. -/
def dca_fraction (i : TradeInputs) : ℚ :=
  dca_pct i / 100

/-- Line 138: `entry_units = total_pos_units * entry_fraction`. -/
def entry_units (i : TradeInputs) : ℚ :=
  total_pos_units i * entry_fraction i

/-- Line 139: `dca_units = total_pos_units * dca_fraction`. -/
def dca_units (i : TradeInputs) : ℚ :=
  total_pos_units i * dca_fraction i

/-- Line 141: `entry_notional = entry_units * entry`. -/
def entry_notional (i : TradeInputs) : ℚ :=
  entry_units i * i.entry

/-- Line 142: `dca_notional = dca_units * entry`. -/
def dca_notional (i : TradeInputs) : ℚ :=
  dca_units i * i.entry

/-- Line 145: `margin_full = total_notional / leverage if leverage > 0 else 0.0`. -/
def margin_full (i : TradeInputs) : ℚ :=
  if 0 < i.leverage then total_notional i / (i.leverage : ℚ) else 0

/-- Line 146: `margin_entry = entry_notional / leverage if leverage > 0 else 0.0`. -/
def margin_entry (i : TradeInputs) : ℚ :=
  if 0 < i.leverage then entry_notional i / (i.leverage : ℚ) else 0

/-- Line 147: `margin_dca = dca_notional / leverage if leverage > 0 else 0.0`. -/
def margin_dca (i : TradeInputs) : ℚ :=
  if 0 < i.leverage then dca_notional i / (i.leverage : ℚ) else 0

/-- Line 150: `reward_per_unit = abs(target - entry)`. -/
def reward_per_unit (i : TradeInputs) : ℚ :=
  |i.target - i.entry|

/-- Line 151: `risk_reward_ratio = reward_per_unit / risk_per_unit if
risk_per_unit != 0 else None`.  Note that the guard of the source tests
`risk_per_unit`, not `reward_per_unit`, so after the line 122 validation
this value is never `None`. -/
def risk_reward (i : TradeInputs) : Option ℚ :=
  if risk_per_unit i ≠ 0 then some (reward_per_unit i / risk_per_unit i) else none

/-- Line 154: `account_risk_pct = (risk / account_balance) * 100 if
account_balance > 0 else None`. -/
def account_risk_pct (i : TradeInputs) : Option ℚ :=
  if 0 < i.account_balance then some (risk i / i.account_balance * 100) else none

/-- Lines 157-161: the liquidation approximation, `entry * (1 - (1 /
leverage))` for Long and `entry * (1 + (1 / leverage))` for Short. -/
def liq (i : TradeInputs) : ℚ :=
  match i.side with
  | Side.Long => i.entry * (1 - 1 / (i.leverage : ℚ))
  | Side.Short => i.entry * (1 + 1 / (i.leverage : ℚ))

/-- Lines 159 and 162: `move_to_target`, signed by side. -/
def move_to_target (i : TradeInputs) : ℚ :=
  match i.side with
  | Side.Long => i.target - i.entry
  | Side.Short => i.entry - i.target

/-- Line 165: `entry_stop_pct = (risk_per_unit / entry) * 100`. -/
def entry_stop_pct (i : TradeInputs) : ℚ :=
  risk_per_unit i / i.entry * 100

/-- Line 166: `entry_liq_pct = (abs(entry - liq) / entry) * 100`. -/
def entry_liq_pct (i : TradeInputs) : ℚ :=
  |i.entry - liq i| / i.entry * 100

/-- Line 167: `stop_liq_pct = (abs(stop - liq) / stop) * 100 if stop != 0
else None`. -/
def stop_liq_pct (i : TradeInputs) : Option ℚ :=
  if i.stop ≠ 0 then some (|i.stop - liq i| / i.stop * 100) else none

/-- Line 170: `pnl_target_full = move_to_target * total_pos_units`. -/
def pnl_target_full (i : TradeInputs) : ℚ :=
  move_to_target i * total_pos_units i

/-- Line 173: `risk_entry_only = entry_units * risk_per_unit`. -/
def risk_entry_only (i : TradeInputs) : ℚ :=
  entry_units i * risk_per_unit i

/-- Derived metrics of one calculation, the values bound by lines
130-173 of `src/app.py`.  The field `risk_reward` is called
`risk_reward_ratio` in the source. -/
structure TradeMetrics where
  risk_per_unit : ℚ
  total_pos_units : ℚ
  total_notional : ℚ
  entry_units : ℚ
  dca_units : ℚ
  entry_notional : ℚ
  dca_notional : ℚ
  margin_full : ℚ
  margin_entry : ℚ
  margin_dca : ℚ
  risk_reward : Option ℚ
  account_risk_pct : Option ℚ
  liq : ℚ
  entry_stop_pct : ℚ
  entry_liq_pct : ℚ
  stop_liq_pct : Option ℚ
  pnl_target_full : ℚ
  risk_entry_only : ℚ

/-- Packs all metric values of lines 130-173 for one input snapshot. -/
def mkMetrics (i : TradeInputs) : TradeMetrics :=
  { risk_per_unit := risk_per_unit i
    total_pos_units := total_pos_units i
    total_notional := total_notional i
    entry_units := entry_units i
    dca_units := dca_units i
    entry_notional := entry_notional i
    dca_notional := dca_notional i
    margin_full := margin_full i
    margin_entry := margin_entry i
    margin_dca := margin_dca i
    risk_reward := risk_reward i
    account_risk_pct := account_risk_pct i
    liq := liq i
    entry_stop_pct := entry_stop_pct i
    entry_liq_pct := entry_liq_pct i
    stop_liq_pct := stop_liq_pct i
    pnl_target_full := pnl_target_full i
    risk_entry_only := risk_entry_only i }

/-- The calculation block of `src/app.py`, lines 119-173, as one function.
In order: the `st.stop` exit of lines 122-124 when `risk_per_unit == 0`,
the `st.stop` exit of lines 126-128 when `risk <= 0`, then two Python
`ZeroDivisionError` raise points modeled as guards because rational
division in Lean is total: `1 / leverage` at lines 158 and 161 raises
when `leverage == 0` (the widget minimum is 1, so this needs an input
outside the widget range), and `risk_per_unit / entry` at line 165 raises
when `entry == 0`.  Both exceptions are caught by the `except` of line
247, so no metrics are shown.  All remaining divisions have nonzero
divisors on this path or carry their own guard in the source. -/
def compute (i : TradeInputs) : Except AppError TradeMetrics :=
  if risk_per_unit i = 0 then Except.error AppError.zeroRiskDistance
  else if risk i ≤ 0 then Except.error AppError.nonPositiveRisk
  else if i.leverage = 0 then Except.error AppError.divByZero
  else if i.entry = 0 then Except.error AppError.divByZero
  else Except.ok (mkMetrics i)

/-- The results pane of `src/app.py`, lines 176-245.  The summary banner
at lines 180-188 formats `account_risk_pct` with the `.2f` float format
spec; when `account_balance = 0` that value is `None` and Python raises
`TypeError: unsupported format string passed to NoneType.__format__`,
which the `except` of line 247 catches, so an error message is shown
instead of any results.  The embedding returns the metrics when the pane
renders and the formatting error otherwise. -/
def renderResults (i : TradeInputs) : Except AppError TradeMetrics :=
  match compute i with
  | Except.error e => Except.error e
  | Except.ok m =>
    match m.account_risk_pct with
    | none => Except.error AppError.noneFormat
    | some _ => Except.ok m

/-- The risk-reward advisory of lines 233-239: with the ratio defined,
`>= 3` gives the strong-setup message, `>= 2` the decent-setup message,
anything else the weak-setup message; the three branches of the
`if/elif/else` are mutually exclusive. -/
def rrAdvisories (m : TradeMetrics) : List Advisory :=
  match m.risk_reward with
  | some rr =>
    if 3 ≤ rr then [Advisory.StrongSetup]
    else if 2 ≤ rr then [Advisory.DecentSetup]
    else [Advisory.WeakRiskReward]
  | none => []

/-- The safety warnings of lines 242-245: liquidation close to stop when
`stop_liq_pct < 1`, and excessive account risk when
`account_risk_pct > 2`, each skipped when its value is `None`. -/
def safetyAdvisories (m : TradeMetrics) : List Advisory :=
  (match m.stop_liq_pct with
   | some p => if p < 1 then [Advisory.LiquidationNearStop] else []
   | none => []) ++
  (match m.account_risk_pct with
   | some p => if 2 < p then [Advisory.ExcessiveAccountRisk] else []
   | none => [])

/-- All advisory messages of the results pane in emission order, lines
233-245. -/
def advisories (m : TradeMetrics) : List Advisory :=
  rrAdvisories m ++ safetyAdvisories m

/-- Tags the three mutually exclusive risk-reward advisories. -/
def isRRAdvisory : Advisory → Bool
  | Advisory.StrongSetup => true
  | Advisory.DecentSetup => true
  | Advisory.WeakRiskReward => true
  | Advisory.LiquidationNearStop => false
  | Advisory.ExcessiveAccountRisk => false

/-! ### Basic facts about the calculation block -/

/-- The risk per unit vanishes exactly when the entry and stop prices
coincide. -/
theorem risk_per_unit_eq_zero_iff (i : TradeInputs) :
    risk_per_unit i = 0 ↔ i.entry = i.stop := by
  simp [risk_per_unit, abs_eq_zero, sub_eq_zero]

/-- When all four guards pass, the calculation block produces the
metrics record. -/
theorem compute_ok_intro (i : TradeInputs) (h1 : risk_per_unit i ≠ 0)
    (h2 : 0 < risk i) (h3 : i.leverage ≠ 0) (h4 : i.entry ≠ 0) :
    compute i = Except.ok (mkMetrics i) := by
  unfold compute
  rw [if_neg h1, if_neg (not_le.mpr h2), if_neg h3, if_neg h4]

/-- A successful run of the calculation block means all four guards
passed and the result is the metrics record. -/
theorem compute_ok_elim (i : TradeInputs) (m : TradeMetrics)
    (h : compute i = Except.ok m) :
    risk_per_unit i ≠ 0 ∧ 0 < risk i ∧ i.leverage ≠ 0 ∧ i.entry ≠ 0 ∧
      m = mkMetrics i := by
  unfold compute at h
  split_ifs at h with h1 h2 h3 h4
  exact ⟨h1, not_le.mp h2, h3, h4, (Except.ok.inj h).symm⟩

/-! ### Concrete input snapshots used to instantiate the theorems -/

/-- Scenario 1 of the spec: entry 100, stop 90, target 130, leverage 10,
dollar risk 100, DCA disabled (so the effective DCA percent is 0), side
Long, account balance at the widget default 5000. -/
def scn1 : TradeInputs :=
  { entry := 100, stop := 90, target := 130, leverage := 10,
    account_balance := 5000, use_risk_pct := false, risk_pct_field := 1,
    risk_dollar_field := 100, side := Side.Long, use_dca := false,
    dca_pct_field := 50 }

/-- The calculation block succeeds on the scenario 1 input. -/
theorem compute_scn1_ok : compute scn1 = Except.ok (mkMetrics scn1) :=
  compute_ok_intro scn1 (by norm_num [risk_per_unit, scn1])
    (by norm_num [risk, scn1]) (by norm_num [scn1]) (by norm_num [scn1])

/-- Input with identical entry and stop prices. -/
def identInput : TradeInputs :=
  { entry := 7, stop := 7, target := 9, leverage := 5,
    account_balance := 1000, use_risk_pct := false, risk_pct_field := 1,
    risk_dollar_field := 50, side := Side.Short, use_dca := true,
    dca_pct_field := 30 }

/-- Input whose target price equals the entry price (zero reward). -/
def zeroRewardInput : TradeInputs :=
  { entry := 100, stop := 90, target := 100, leverage := 20,
    account_balance := 5000, use_risk_pct := false, risk_pct_field := 1,
    risk_dollar_field := 100, side := Side.Long, use_dca := false,
    dca_pct_field := 50 }

/-- The calculation block succeeds on the zero-reward input. -/
theorem compute_zeroReward_ok :
    compute zeroRewardInput = Except.ok (mkMetrics zeroRewardInput) :=
  compute_ok_intro zeroRewardInput (by norm_num [risk_per_unit, zeroRewardInput])
    (by norm_num [risk, zeroRewardInput]) (by norm_num [zeroRewardInput])
    (by norm_num [zeroRewardInput])

/-- Input with a negative target price, otherwise ordinary. -/
def negTargetInput : TradeInputs :=
  { entry := 100, stop := 90, target := -5, leverage := 20,
    account_balance := 5000, use_risk_pct := false, risk_pct_field := 1,
    risk_dollar_field := 100, side := Side.Long, use_dca := false,
    dca_pct_field := 50 }

/-- The calculation block succeeds on the negative-target input. -/
theorem compute_negTarget_ok :
    compute negTargetInput = Except.ok (mkMetrics negTargetInput) :=
  compute_ok_intro negTargetInput (by norm_num [risk_per_unit, negTargetInput])
    (by norm_num [risk, negTargetInput]) (by norm_num [negTargetInput])
    (by norm_num [negTargetInput])

/-! ### Claims -/

/-- C1: for every valid input (entry distinct from stop, resolved dollar
risk positive) on which the calculation runs, the sizing follows Policy
B: the risk per unit is `|entry - stop|`, the total position units are
the resolved dollar risk divided by the risk per unit, the entry leg is
the total times `1 - dcaPercent/100`, and the DCA leg is the total times
`dcaPercent/100`. -/
theorem c1_policy_b_sizing (i : TradeInputs) (m : TradeMetrics)
    (_hne : i.entry ≠ i.stop) (_hrisk : 0 < risk i)
    (hok : compute i = Except.ok m) :
    m.risk_per_unit = |i.entry - i.stop| ∧
    m.total_pos_units = risk i / |i.entry - i.stop| ∧
    m.entry_units = m.total_pos_units * (1 - dca_pct i / 100) ∧
    m.dca_units = m.total_pos_units * (dca_pct i / 100) := by
  obtain ⟨-, -, -, -, rfl⟩ := compute_ok_elim i m hok
  exact ⟨rfl, rfl, rfl, rfl⟩

/-- Witness for C1 at the scenario 1 input. -/
theorem c1_policy_b_sizing_witness :
    scn1.entry ≠ scn1.stop ∧ 0 < risk scn1 ∧
    ((mkMetrics scn1).risk_per_unit = |scn1.entry - scn1.stop| ∧
     (mkMetrics scn1).total_pos_units = risk scn1 / |scn1.entry - scn1.stop| ∧
     (mkMetrics scn1).entry_units =
       (mkMetrics scn1).total_pos_units * (1 - dca_pct scn1 / 100) ∧
     (mkMetrics scn1).dca_units =
       (mkMetrics scn1).total_pos_units * (dca_pct scn1 / 100)) :=
  ⟨by norm_num [scn1], by norm_num [risk, scn1],
   c1_policy_b_sizing scn1 (mkMetrics scn1) (by norm_num [scn1])
     (by norm_num [risk, scn1]) compute_scn1_ok⟩

/-- C2: whenever the entry price equals the stop price, the calculation
block exits with the zero-risk-distance error regardless of every other
field, before any division happens, so no metrics are produced. -/
theorem c2_zero_risk_distance (i : TradeInputs) (h : i.entry = i.stop) :
    compute i = Except.error AppError.zeroRiskDistance := by
  unfold compute
  rw [if_pos ((risk_per_unit_eq_zero_iff i).mpr h)]

/-- Witness for C2 at an input with entry and stop both 7. -/
theorem c2_zero_risk_distance_witness :
    identInput.entry = identInput.stop ∧
    compute identInput = Except.error AppError.zeroRiskDistance :=
  ⟨rfl, c2_zero_risk_distance identInput rfl⟩

/-- C3 counterexample: at an input whose target equals the entry (both
100) while entry differs from stop, the calculation still succeeds and
the risk-reward value is `some 0`, not absent: the guard at line 151 of
the source tests `risk_per_unit`, which can no longer be zero there, so
the value is never `None` on the success path, refuting the claim that
it is absent exactly when target equals entry. -/
theorem c3_zero_reward_counterexample :
    zeroRewardInput.target = zeroRewardInput.entry ∧
    zeroRewardInput.entry ≠ zeroRewardInput.stop ∧
    compute zeroRewardInput = Except.ok (mkMetrics zeroRewardInput) ∧
    (mkMetrics zeroRewardInput).risk_reward = some 0 :=
  ⟨rfl, by norm_num [zeroRewardInput], compute_zeroReward_ok,
   by norm_num [mkMetrics, risk_reward, reward_per_unit, risk_per_unit,
     zeroRewardInput]⟩

/-- C3 amended: on every successful run of the calculation block the
risk-reward value is defined and equals `|target - entry| / |entry -
stop|`; in particular a zero-reward target yields `some 0` rather than
an absent value. -/
theorem c3_risk_reward_always_defined (i : TradeInputs) (m : TradeMetrics)
    (hok : compute i = Except.ok m) :
    m.risk_reward = some (|i.target - i.entry| / |i.entry - i.stop|) := by
  obtain ⟨h1, -, -, -, rfl⟩ := compute_ok_elim i m hok
  have h1' : |i.entry - i.stop| ≠ 0 := by simpa [risk_per_unit] using h1
  simp [mkMetrics, risk_reward, reward_per_unit, risk_per_unit, h1']

/-- Witness for the amended C3 at the zero-reward input. -/
theorem c3_risk_reward_always_defined_witness :
    (mkMetrics zeroRewardInput).risk_reward =
      some (|zeroRewardInput.target - zeroRewardInput.entry| /
        |zeroRewardInput.entry - zeroRewardInput.stop|) :=
  c3_risk_reward_always_defined zeroRewardInput (mkMetrics zeroRewardInput)
    compute_zeroReward_ok

/-- C4 counterexample: an input with a non-positive price field (target
-5) on which the calculation block succeeds and returns metrics; the
source has no positivity validation on prices or the balance, and no
invalid-price error kind exists anywhere in it. -/
theorem c4_no_price_validation_counterexample :
    negTargetInput.target ≤ 0 ∧
    compute negTargetInput = Except.ok (mkMetrics negTargetInput) :=
  ⟨by norm_num [negTargetInput], compute_negTarget_ok⟩

/-- C4 amended: the calculation block never validates the signs of the
price fields or the account balance; it succeeds on every input whose
entry differs from its stop, whose resolved risk is positive, and whose
leverage and entry are nonzero (the latter two guard the Python
zero-division raise points), regardless of negative or zero values in
the other fields. -/
theorem c4_no_price_validation (i : TradeInputs)
    (h1 : i.entry ≠ i.stop) (h2 : 0 < risk i)
    (h3 : i.leverage ≠ 0) (h4 : i.entry ≠ 0) :
    compute i = Except.ok (mkMetrics i) :=
  compute_ok_intro i (fun hc => h1 ((risk_per_unit_eq_zero_iff i).mp hc))
    h2 h3 h4

/-- Witness for the amended C4 at the negative-target input. -/
theorem c4_no_price_validation_witness :
    negTargetInput.entry ≠ negTargetInput.stop ∧ 0 < risk negTargetInput ∧
    compute negTargetInput = Except.ok (mkMetrics negTargetInput) :=
  ⟨by norm_num [negTargetInput], by norm_num [risk, negTargetInput],
   c4_no_price_validation negTargetInput (by norm_num [negTargetInput])
     (by norm_num [risk, negTargetInput]) (by norm_num [negTargetInput])
     (by norm_num [negTargetInput])⟩

/-- C5: on every successful run, the liquidation price is `entry * (1 -
1/leverage)` for Long and `entry * (1 + 1/leverage)` for Short; with a
positive entry it lies below the entry for Long whenever leverage
exceeds 1, and above the entry for Short. -/
theorem c5_liquidation_price (i : TradeInputs) (m : TradeMetrics)
    (hok : compute i = Except.ok m) :
    (i.side = Side.Long → m.liq = i.entry * (1 - 1 / (i.leverage : ℚ))) ∧
    (i.side = Side.Short → m.liq = i.entry * (1 + 1 / (i.leverage : ℚ))) ∧
    (0 < i.entry → 1 < i.leverage → i.side = Side.Long → m.liq < i.entry) ∧
    (0 < i.entry → i.side = Side.Short → i.entry < m.liq) := by
  obtain ⟨-, -, h3, -, rfl⟩ := compute_ok_elim i m hok
  have hL : (0 : ℚ) < (i.leverage : ℚ) := by
    exact_mod_cast Nat.pos_of_ne_zero h3
  have hinv : (0 : ℚ) < 1 / (i.leverage : ℚ) := by positivity
  refine ⟨fun hs => by simp [mkMetrics, liq, hs], fun hs => by simp [mkMetrics, liq, hs],
    ?_, ?_⟩
  · intro he _hlev hs
    have hl : (mkMetrics i).liq = i.entry * (1 - 1 / (i.leverage : ℚ)) := by
      simp [mkMetrics, liq, hs]
    rw [hl]
    nlinarith [mul_pos he hinv]
  · intro he hs
    have hl : (mkMetrics i).liq = i.entry * (1 + 1 / (i.leverage : ℚ)) := by
      simp [mkMetrics, liq, hs]
    rw [hl]
    nlinarith [mul_pos he hinv]

/-- Witness for C5 at the scenario 1 input, a Long position with
leverage 10 and entry 100. -/
theorem c5_liquidation_price_witness :
    ((scn1.side = Side.Long →
        (mkMetrics scn1).liq = scn1.entry * (1 - 1 / (scn1.leverage : ℚ))) ∧
     (scn1.side = Side.Short →
        (mkMetrics scn1).liq = scn1.entry * (1 + 1 / (scn1.leverage : ℚ))) ∧
     (0 < scn1.entry → 1 < scn1.leverage → scn1.side = Side.Long →
        (mkMetrics scn1).liq < scn1.entry) ∧
     (0 < scn1.entry → scn1.side = Side.Short →
        scn1.entry < (mkMetrics scn1).liq)) :=
  c5_liquidation_price scn1 (mkMetrics scn1) compute_scn1_ok

/-- Input with DCA enabled and the shared slider value at 0. -/
def dcaZeroInput : TradeInputs :=
  { entry := 100, stop := 90, target := 130, leverage := 10,
    account_balance := 5000, use_risk_pct := false, risk_pct_field := 1,
    risk_dollar_field := 100, side := Side.Long, use_dca := true,
    dca_pct_field := 0 }

/-- The calculation block succeeds on the zero-DCA input. -/
theorem compute_dcaZero_ok :
    compute dcaZeroInput = Except.ok (mkMetrics dcaZeroInput) :=
  compute_ok_intro dcaZeroInput (by norm_num [risk_per_unit, dcaZeroInput])
    (by norm_num [risk, dcaZeroInput]) (by norm_num [dcaZeroInput])
    (by norm_num [dcaZeroInput])

/-- Input with DCA enabled and the shared slider value at 50. -/
def dcaHalfInput : TradeInputs :=
  { entry := 100, stop := 90, target := 130, leverage := 10,
    account_balance := 5000, use_risk_pct := false, risk_pct_field := 1,
    risk_dollar_field := 100, side := Side.Long, use_dca := true,
    dca_pct_field := 50 }

/-- The calculation block succeeds on the half-DCA input. -/
theorem compute_dcaHalf_ok :
    compute dcaHalfInput = Except.ok (mkMetrics dcaHalfInput) :=
  compute_ok_intro dcaHalfInput (by norm_num [risk_per_unit, dcaHalfInput])
    (by norm_num [risk, dcaHalfInput]) (by norm_num [dcaHalfInput])
    (by norm_num [dcaHalfInput])

/-- C6: on every successful run, an effective DCA percentage of 0 puts
the whole position in the entry leg and leaves the DCA leg empty, and an
effective DCA percentage of 100 leaves the entry leg empty and puts the
whole position in the DCA leg. -/
theorem c6_dca_extremes (i : TradeInputs) (m : TradeMetrics)
    (hok : compute i = Except.ok m) :
    (dca_pct i = 0 → m.entry_units = m.total_pos_units ∧ m.dca_units = 0) ∧
    (dca_pct i = 100 → m.entry_units = 0 ∧ m.dca_units = m.total_pos_units) := by
  obtain ⟨-, -, -, -, rfl⟩ := compute_ok_elim i m hok
  constructor
  · intro h
    constructor
    · show total_pos_units i * entry_fraction i = total_pos_units i
      rw [entry_fraction, h]
      norm_num
    · show total_pos_units i * dca_fraction i = 0
      rw [dca_fraction, h]
      norm_num
  · intro h
    constructor
    · show total_pos_units i * entry_fraction i = 0
      rw [entry_fraction, h]
      norm_num
    · show total_pos_units i * dca_fraction i = total_pos_units i
      rw [dca_fraction, h]
      norm_num

/-- Witness for C6 at the zero-DCA input. -/
theorem c6_dca_extremes_witness :
    dca_pct dcaZeroInput = 0 ∧
    (mkMetrics dcaZeroInput).entry_units = (mkMetrics dcaZeroInput).total_pos_units ∧
    (mkMetrics dcaZeroInput).dca_units = 0 :=
  have h0 : dca_pct dcaZeroInput = 0 := by norm_num [dca_pct, dcaZeroInput]
  ⟨h0, (c6_dca_extremes dcaZeroInput (mkMetrics dcaZeroInput) compute_dcaZero_ok).1 h0⟩

/-- C7: on every successful run the two legs conserve the totals in
exact rational arithmetic: units, notional value, and required margin
each sum across the entry and DCA legs to the full-position figure. -/
theorem c7_leg_conservation (i : TradeInputs) (m : TradeMetrics)
    (hok : compute i = Except.ok m) :
    m.entry_units + m.dca_units = m.total_pos_units ∧
    m.entry_notional + m.dca_notional = m.total_notional ∧
    m.margin_entry + m.margin_dca = m.margin_full := by
  obtain ⟨-, -, -, -, rfl⟩ := compute_ok_elim i m hok
  have hnot : entry_notional i + dca_notional i = total_notional i := by
    unfold entry_notional dca_notional entry_units dca_units entry_fraction
      dca_fraction total_notional
    ring
  refine ⟨?_, hnot, ?_⟩
  · show entry_units i + dca_units i = total_pos_units i
    unfold entry_units dca_units entry_fraction dca_fraction
    ring
  · show margin_entry i + margin_dca i = margin_full i
    unfold margin_entry margin_dca margin_full
    split_ifs
    · rw [div_add_div_same, hnot]
    · norm_num

/-- Witness for C7 at the half-DCA input. -/
theorem c7_leg_conservation_witness :
    (mkMetrics dcaHalfInput).entry_units + (mkMetrics dcaHalfInput).dca_units =
      (mkMetrics dcaHalfInput).total_pos_units ∧
    (mkMetrics dcaHalfInput).entry_notional + (mkMetrics dcaHalfInput).dca_notional =
      (mkMetrics dcaHalfInput).total_notional ∧
    (mkMetrics dcaHalfInput).margin_entry + (mkMetrics dcaHalfInput).margin_dca =
      (mkMetrics dcaHalfInput).margin_full :=
  c7_leg_conservation dcaHalfInput (mkMetrics dcaHalfInput) compute_dcaHalf_ok

/-- C8: at the scenario 1 input (entry 100, stop 90, target 130,
leverage 10, dollar risk 100, DCA percent 0, side Long) the calculation
succeeds with risk per unit 10, total position units 10, full margin
100, liquidation price 90, risk-reward value 3, and the advisories
include the strong-setup message. -/
theorem c8_scenario_one :
    compute scn1 = Except.ok (mkMetrics scn1) ∧
    (mkMetrics scn1).risk_per_unit = 10 ∧
    (mkMetrics scn1).total_pos_units = 10 ∧
    (mkMetrics scn1).margin_full = 100 ∧
    (mkMetrics scn1).liq = 90 ∧
    (mkMetrics scn1).risk_reward = some 3 ∧
    Advisory.StrongSetup ∈ advisories (mkMetrics scn1) := by
  have hrr : (mkMetrics scn1).risk_reward = some 3 := by
    norm_num [mkMetrics, risk_reward, reward_per_unit, risk_per_unit, scn1]
  refine ⟨compute_scn1_ok, ?_, ?_, ?_, ?_, hrr, ?_⟩
  · norm_num [mkMetrics, risk_per_unit, scn1]
  · norm_num [mkMetrics, total_pos_units, risk, risk_per_unit, scn1]
  · norm_num [mkMetrics, margin_full, total_notional, total_pos_units, risk,
      risk_per_unit, scn1]
  · norm_num [mkMetrics, liq, scn1]
  · have hlist : rrAdvisories (mkMetrics scn1) = [Advisory.StrongSetup] := by
      rw [rrAdvisories, hrr]
      norm_num
    simp [advisories, hlist]

/-- Input with a zero account balance, otherwise ordinary. -/
def zeroBalanceInput : TradeInputs :=
  { entry := 100, stop := 90, target := 130, leverage := 10,
    account_balance := 0, use_risk_pct := false, risk_pct_field := 1,
    risk_dollar_field := 100, side := Side.Long, use_dca := false,
    dca_pct_field := 50 }

/-- C9 (code bug exhibit): with a zero account balance the calculation
itself succeeds and leaves the account-risk percentage absent, exactly
as the claim says, but the summary banner of lines 180-188 then formats
that `None` with the `.2f` float format spec, which raises a
`TypeError`; the outer `except` turns the whole results pane into an
error message, so an exception is raised after all and no metrics are
shown. -/
theorem c9_zero_balance_none_format :
    zeroBalanceInput.account_balance = 0 ∧
    compute zeroBalanceInput = Except.ok (mkMetrics zeroBalanceInput) ∧
    (mkMetrics zeroBalanceInput).account_risk_pct = none ∧
    renderResults zeroBalanceInput = Except.error AppError.noneFormat := by
  have hok : compute zeroBalanceInput = Except.ok (mkMetrics zeroBalanceInput) :=
    compute_ok_intro zeroBalanceInput (by norm_num [risk_per_unit, zeroBalanceInput])
      (by norm_num [risk, zeroBalanceInput]) (by norm_num [zeroBalanceInput])
      (by norm_num [zeroBalanceInput])
  have hnone : (mkMetrics zeroBalanceInput).account_risk_pct = none := by
    norm_num [mkMetrics, account_risk_pct, zeroBalanceInput]
  exact ⟨rfl, hok, hnone, by simp [renderResults, hok, hnone]⟩

/-- Every safety warning is one of the two non-risk-reward advisories. -/
theorem safety_adv_cases (m : TradeMetrics) (a : Advisory)
    (ha : a ∈ safetyAdvisories m) :
    a = Advisory.LiquidationNearStop ∨ a = Advisory.ExcessiveAccountRisk := by
  unfold safetyAdvisories at ha
  cases hs : m.stop_liq_pct <;> cases hq : m.account_risk_pct <;>
    rw [hs, hq] at ha <;>
    simp only [List.mem_append, List.mem_singleton, List.not_mem_nil] at ha <;>
    (try split_ifs at ha) <;>
    simp_all

/-- No risk-reward advisory ever appears among the safety warnings. -/
theorem rr_not_in_safety (m : TradeMetrics) (a : Advisory)
    (hta : isRRAdvisory a = true) : a ∉ safetyAdvisories m := by
  intro hmem
  rcases safety_adv_cases m a hmem with h | h <;> rw [h] at hta <;>
    exact Bool.noConfusion hta

/-- The safety warnings contribute nothing to the count of risk-reward
advisories. -/
theorem countP_rr_safety (m : TradeMetrics) :
    List.countP isRRAdvisory (safetyAdvisories m) = 0 := by
  rw [List.countP_eq_zero]
  intro a ha
  rcases safety_adv_cases m a ha with h | h <;> rw [h] <;> decide

/-- C10: whenever the risk-reward value is defined, exactly one of the
three risk-reward advisories is emitted and it matches the thresholds:
strong setup at 3 or above, decent setup in the interval from 2 up to
but excluding 3, weak setup below 2. -/
theorem c10_rr_advisory_thresholds (i : TradeInputs) (m : TradeMetrics) (rr : ℚ)
    (_hok : compute i = Except.ok m) (hrr : m.risk_reward = some rr) :
    ((Advisory.StrongSetup ∈ advisories m) ↔ 3 ≤ rr) ∧
    ((Advisory.DecentSetup ∈ advisories m) ↔ (2 ≤ rr ∧ rr < 3)) ∧
    ((Advisory.WeakRiskReward ∈ advisories m) ↔ rr < 2) ∧
    List.countP isRRAdvisory (advisories m) = 1 := by
  have hstrong_safe : Advisory.StrongSetup ∉ safetyAdvisories m :=
    rr_not_in_safety m Advisory.StrongSetup rfl
  have hdecent_safe : Advisory.DecentSetup ∉ safetyAdvisories m :=
    rr_not_in_safety m Advisory.DecentSetup rfl
  have hweak_safe : Advisory.WeakRiskReward ∉ safetyAdvisories m :=
    rr_not_in_safety m Advisory.WeakRiskReward rfl
  have hlist : rrAdvisories m =
      if 3 ≤ rr then [Advisory.StrongSetup]
      else if 2 ≤ rr then [Advisory.DecentSetup]
      else [Advisory.WeakRiskReward] := by
    rw [rrAdvisories, hrr]
  have hadv : advisories m = rrAdvisories m ++ safetyAdvisories m := rfl
  rw [hadv, hlist]
  rcases le_or_lt 3 rr with h3 | h3
  · have h2 : 2 ≤ rr := le_trans (by norm_num) h3
    rw [if_pos h3]
    refine ⟨?_, ?_, ?_, ?_⟩
    · simp [List.mem_append, h3]
    · simp [List.mem_append, hdecent_safe, not_lt.mpr h3]
    · simp [List.mem_append, hweak_safe, not_lt.mpr h2]
    · rw [List.countP_append, countP_rr_safety]
      rfl
  · rw [if_neg (not_le.mpr h3)]
    rcases le_or_lt 2 rr with h2 | h2
    · rw [if_pos h2]
      refine ⟨?_, ?_, ?_, ?_⟩
      · simp [List.mem_append, hstrong_safe, not_le.mpr h3]
      · simp [List.mem_append, h2, h3]
      · simp [List.mem_append, hweak_safe, not_lt.mpr h2]
      · rw [List.countP_append, countP_rr_safety]
        rfl
    · rw [if_neg (not_le.mpr h2)]
      refine ⟨?_, ?_, ?_, ?_⟩
      · simp [List.mem_append, hstrong_safe,
          not_le.mpr (h2.trans (show (2:ℚ) < 3 by norm_num))]
      · simp [List.mem_append, hdecent_safe, not_le.mpr h2]
      · simp [List.mem_append, h2]
      · rw [List.countP_append, countP_rr_safety]
        rfl

/-- Witness for C10 at the scenario 1 input, whose risk-reward value is
3. -/
theorem c10_rr_advisory_thresholds_witness :
    (mkMetrics scn1).risk_reward = some 3 ∧
    (((Advisory.StrongSetup ∈ advisories (mkMetrics scn1)) ↔ (3:ℚ) ≤ 3) ∧
     ((Advisory.DecentSetup ∈ advisories (mkMetrics scn1)) ↔ ((2:ℚ) ≤ 3 ∧ (3:ℚ) < 3)) ∧
     ((Advisory.WeakRiskReward ∈ advisories (mkMetrics scn1)) ↔ (3:ℚ) < 2) ∧
     List.countP isRRAdvisory (advisories (mkMetrics scn1)) = 1) :=
  have hrr : (mkMetrics scn1).risk_reward = some 3 := by
    norm_num [mkMetrics, risk_reward, reward_per_unit, risk_per_unit, scn1]
  ⟨hrr, c10_rr_advisory_thresholds scn1 (mkMetrics scn1) 3 compute_scn1_ok hrr⟩
